import Mathlib

/-!
Verification of `glance/registry/__init__.py` (the registry facade module).

The module holds five process-wide globals (`_CLIENT_CREDS`, `_CLIENT_HOST`,
`_CLIENT_PORT`, `_CLIENT_KWARGS`, `_METADATA_ENCRYPTION_KEY`), two resolver
functions (`configure_registry_client`, `configure_registry_admin_creds`),
a client factory (`get_registry_client`) and eleven one-line delegation
functions.  We embed the globals as an explicit `GlobalState` record threaded
through every function, the configuration object `CONF` as a record of the
option values the module reads, and the external wire client
(`glance.registry.client.RegistryClient`'s methods) as an abstract function
from a constructed handle and an operation descriptor to a result.
-/

namespace GlanceRegistry

/-- Python truthiness of an optional string value (`None` and `""` are falsy,
every other string is truthy).  Used to embed `if CONF.auth_url or
os.getenv('OS_AUTH_URL'):`. -/
def pyTruthy : Option String → Bool
  | none => false
  | some s => s != ""

/-- Python's `str.lower()`, as the module applies it to the protocol
option: lowercase each character (the protocol values of interest are
ASCII). -/
def pyLower (s : String) : String := ⟨s.data.map Char.toLower⟩

/-- Outcome of reading one option from `oslo.config`'s `CONF` object: the
read yields a value, or raises `ConfigFileValueError` (value present but not
convertible, e.g. a non-numeric port), or raises `IndexError` (option cannot
be located).  The source wraps exactly the `CONF.registry_host,
CONF.registry_port` reads in `try/except` for these two exceptions. -/
inductive OptRead (α : Type) where
  | ok (a : α)
  | malformed
  | missing
deriving DecidableEq

/-- The two exception kinds caught in `configure_registry_client`. -/
inductive CfgExc where
  | configFileValueError
  | indexError
deriving DecidableEq

/-- Performing a guarded configuration read: the exception it raises, or its
value. -/
def OptRead.read {α : Type} : OptRead α → Except CfgExc α
  | .ok a => .ok a
  | .malformed => .error .configFileValueError
  | .missing => .error .indexError

/-- The configuration options the module reads from `CONF`.  String options
without a default (`registry_client_key_file`, `admin_user`, `auth_url`, ...)
are `Option String` (`none` = Python `None`); options with defaults are plain
values.  `registry_host` and `registry_port` are the two reads the source
guards with `try/except`, so they carry their read outcome. -/
structure Conf where
  registry_host : OptRead String
  registry_port : OptRead Int
  registry_client_protocol : String
  registry_client_key_file : Option String
  registry_client_cert_file : Option String
  registry_client_ca_file : Option String
  registry_client_insecure : Bool
  registry_client_timeout : Int
  admin_user : Option String
  admin_password : Option String
  admin_tenant_name : Option String
  auth_url : Option String
  auth_strategy : String
  auth_region : Option String
  metadata_encryption_key : Option String
deriving DecidableEq

/-- The process environment as the module sees it: `os.getenv('OS_AUTH_URL')`
returns `None` when the variable is unset, its (possibly empty) string value
otherwise. -/
structure Env where
  OS_AUTH_URL : Option String
deriving DecidableEq

/-- The admin credentials dict built by `configure_registry_admin_creds`.
It always carries exactly these seven keys; `strategy` is always a string. -/
structure ClientCreds where
  user : Option String
  password : Option String
  username : Option String
  tenant : Option String
  auth_url : Option String
  strategy : String
  region : Option String
deriving DecidableEq

/-- The `_CLIENT_KWARGS` dict.  Each field's outer `Option` records whether
the key is present in the dict (`none` = absent, as in the initial `{}`);
the inner value is what the key maps to.  After `configure_registry_client`
succeeds all six keys are present. -/
structure KwargsDict where
  use_ssl : Option Bool
  key_file : Option (Option String)
  cert_file : Option (Option String)
  ca_file : Option (Option String)
  insecure : Option Bool
  timeout : Option Int
deriving DecidableEq

/-- The initial `_CLIENT_KWARGS = {}`. -/
def emptyKwargs : KwargsDict :=
  { use_ssl := none, key_file := none, cert_file := none, ca_file := none,
    insecure := none, timeout := none }

/-- The five module-level globals. -/
structure GlobalState where
  client_creds : Option ClientCreds
  client_host : Option String
  client_port : Option Int
  client_kwargs : KwargsDict
  metadata_encryption_key : Option String
deriving DecidableEq

/-- The globals at import time: `_CLIENT_CREDS = None`, `_CLIENT_HOST = None`,
`_CLIENT_PORT = None`, `_CLIENT_KWARGS = {}`,
`_METADATA_ENCRYPTION_KEY = None`. -/
def initialState : GlobalState :=
  { client_creds := none, client_host := none, client_port := none,
    client_kwargs := emptyKwargs, metadata_encryption_key := none }

/-- Log severities used by the module. -/
inductive LogLevel where
  | error
  | debug
deriving DecidableEq

/-- One emitted log record (format arguments elided: only the level and the
format string matter to the spec). -/
structure LogEntry where
  level : LogLevel
  msg : String
deriving DecidableEq

/-- The exception raised by `configure_registry_client`:
`exception.BadRegistryConnectionConfiguration(msg)`. -/
inductive RegistryError where
  | BadRegistryConnectionConfiguration (msg : String)
deriving DecidableEq

/-- The per-request context; the module only reads `cxt.auth_tok`. -/
structure RequestContext where
  auth_tok : Option String
deriving DecidableEq

/-- The handle returned by `client.RegistryClient(host, port, key, **kwargs)`:
the three positional arguments plus the keyword arguments, namely the copied
transport dict, the always-present `auth_tok` key and the conditionally
present `creds` key. -/
structure RegistryClient where
  host : Option String
  port : Option Int
  metadata_encryption_key : Option String
  kwargs : KwargsDict
  auth_tok : Option String
  creds : Option ClientCreds
deriving DecidableEq

/-- `configure_registry_client()`: reads `host, port = CONF.registry_host,
CONF.registry_port` under `try/except`; on `ConfigFileValueError` or
`IndexError` it logs the corresponding message at error severity and raises
`BadRegistryConnectionConfiguration(msg)` — both before any global is
assigned, so the returned state is the input state.  On success it overwrites
`_CLIENT_HOST`, `_CLIENT_PORT`, `_METADATA_ENCRYPTION_KEY` and
`_CLIENT_KWARGS` (with `use_ssl` set from
`CONF.registry_client_protocol.lower() == 'https'`). -/
def configure_registry_client (conf : Conf) (st : GlobalState) :
    GlobalState × Except RegistryError Unit × List LogEntry :=
  match conf.registry_host.read with
  | .error .configFileValueError =>
      (st, .error (.BadRegistryConnectionConfiguration
        "Configuration option was not valid"),
       [⟨.error, "Configuration option was not valid"⟩])
  | .error .indexError =>
      (st, .error (.BadRegistryConnectionConfiguration
        "Could not find required configuration option"),
       [⟨.error, "Could not find required configuration option"⟩])
  | .ok host =>
    match conf.registry_port.read with
    | .error .configFileValueError =>
        (st, .error (.BadRegistryConnectionConfiguration
          "Configuration option was not valid"),
         [⟨.error, "Configuration option was not valid"⟩])
    | .error .indexError =>
        (st, .error (.BadRegistryConnectionConfiguration
          "Could not find required configuration option"),
         [⟨.error, "Could not find required configuration option"⟩])
    | .ok port =>
        ({ st with
            client_host := some host,
            client_port := some port,
            metadata_encryption_key := conf.metadata_encryption_key,
            client_kwargs :=
              { use_ssl :=
                  some (pyLower conf.registry_client_protocol == "https"),
                key_file := some conf.registry_client_key_file,
                cert_file := some conf.registry_client_cert_file,
                ca_file := some conf.registry_client_ca_file,
                insecure := some conf.registry_client_insecure,
                timeout := some conf.registry_client_timeout } },
         .ok (), [])

/-- `configure_registry_admin_creds()`: forces strategy to `'keystone'` when
`CONF.auth_url or os.getenv('OS_AUTH_URL')` is truthy, otherwise uses
`CONF.auth_strategy`; then overwrites `_CLIENT_CREDS` with the seven-key
dict.  It performs no fallible operation, so it is total. -/
def configure_registry_admin_creds (conf : Conf) (env : Env)
    (st : GlobalState) : GlobalState :=
  let strategy :=
    if pyTruthy conf.auth_url || pyTruthy env.OS_AUTH_URL then "keystone"
    else conf.auth_strategy
  { st with
      client_creds := some
        { user := conf.admin_user,
          password := conf.admin_password,
          username := conf.admin_user,
          tenant := conf.admin_tenant_name,
          auth_url := conf.auth_url,
          strategy := strategy,
          region := conf.auth_region } }

/-- `get_registry_client(cxt)`: copies `_CLIENT_KWARGS` (so the per-call
additions below never reach the global dict), adds `auth_tok` from the
context, adds `creds` only if `_CLIENT_CREDS` is truthy (a 7-key dict is
always truthy; `None` is falsy), and constructs `RegistryClient`.  The
function writes no global, so the returned state is the input state. -/
def get_registry_client (st : GlobalState) (cxt : RequestContext) :
    GlobalState × RegistryClient :=
  let kwargs := st.client_kwargs
  let creds : Option ClientCreds :=
    match st.client_creds with
    | some c => some c
    | none => none
  (st,
   { host := st.client_host,
     port := st.client_port,
     metadata_encryption_key := st.metadata_encryption_key,
     kwargs := kwargs,
     auth_tok := cxt.auth_tok,
     creds := creds })

/-- Query filters / image metadata dicts, embedded as association lists of
string keys to string values (their contents are opaque to this module). -/
abbrev StrDict : Type := List (String × String)

/-- A call on the wire client, naming the method and its arguments in order.
The constructors match the eleven `RegistryClient` methods the delegation
functions invoke. -/
inductive WireOp where
  | get_images (filters : StrDict)
  | get_images_detailed (filters : StrDict)
  | get_image (image_id : String)
  | add_image (image_meta : StrDict)
  | update_image (image_id : String) (image_meta : StrDict)
      (purge_props : Bool)
  | delete_image (image_id : String)
  | get_image_members (image_id : String)
  | get_member_images (member_id : String)
  | replace_members (image_id : String) (member_data : StrDict)
  | add_member (image_id : String) (member_id : String)
      (can_share : Option Bool)
  | delete_member (image_id : String) (member_id : String)
deriving DecidableEq

/-- The external wire client: given the constructed handle and one method
call it produces a result of some type `ρ`.  Each delegation function calls
it exactly once. -/
def WireClient (ρ : Type) : Type := RegistryClient → WireOp → ρ

/-- `get_images_list(context, **kwargs)`. -/
def get_images_list {ρ : Type} (wire : WireClient ρ) (st : GlobalState)
    (context : RequestContext) (filters : StrDict) : ρ :=
  let c := (get_registry_client st context).2
  wire c (.get_images filters)

/-- `get_images_detail(context, **kwargs)`. -/
def get_images_detail {ρ : Type} (wire : WireClient ρ) (st : GlobalState)
    (context : RequestContext) (filters : StrDict) : ρ :=
  let c := (get_registry_client st context).2
  wire c (.get_images_detailed filters)

/-- `get_image_metadata(context, image_id)`. -/
def get_image_metadata {ρ : Type} (wire : WireClient ρ) (st : GlobalState)
    (context : RequestContext) (image_id : String) : ρ :=
  let c := (get_registry_client st context).2
  wire c (.get_image image_id)

/-- `add_image_metadata(context, image_meta)`; logs at debug first. -/
def add_image_metadata {ρ : Type} (wire : WireClient ρ) (st : GlobalState)
    (context : RequestContext) (image_meta : StrDict) : ρ × List LogEntry :=
  let log : List LogEntry := [⟨.debug, "Adding image metadata..."⟩]
  let c := (get_registry_client st context).2
  (wire c (.add_image image_meta), log)

/-- `update_image_metadata(context, image_id, image_meta,
purge_props=False)`; logs at debug first.  The Python default
`purge_props=False` is passed explicitly here. -/
def update_image_metadata {ρ : Type} (wire : WireClient ρ) (st : GlobalState)
    (context : RequestContext) (image_id : String) (image_meta : StrDict)
    (purge_props : Bool) : ρ × List LogEntry :=
  let log : List LogEntry :=
    [⟨.debug, "Updating image metadata for image %s..."⟩]
  let c := (get_registry_client st context).2
  (wire c (.update_image image_id image_meta purge_props), log)

/-- `delete_image_metadata(context, image_id)`; logs at debug first. -/
def delete_image_metadata {ρ : Type} (wire : WireClient ρ) (st : GlobalState)
    (context : RequestContext) (image_id : String) : ρ × List LogEntry :=
  let log : List LogEntry :=
    [⟨.debug, "Deleting image metadata for image %s..."⟩]
  let c := (get_registry_client st context).2
  (wire c (.delete_image image_id), log)

/-- `get_image_members(context, image_id)`. -/
def get_image_members {ρ : Type} (wire : WireClient ρ) (st : GlobalState)
    (context : RequestContext) (image_id : String) : ρ :=
  let c := (get_registry_client st context).2
  wire c (.get_image_members image_id)

/-- `get_member_images(context, member_id)`. -/
def get_member_images {ρ : Type} (wire : WireClient ρ) (st : GlobalState)
    (context : RequestContext) (member_id : String) : ρ :=
  let c := (get_registry_client st context).2
  wire c (.get_member_images member_id)

/-- `replace_members(context, image_id, member_data)`. -/
def replace_members {ρ : Type} (wire : WireClient ρ) (st : GlobalState)
    (context : RequestContext) (image_id : String) (member_data : StrDict) :
    ρ :=
  let c := (get_registry_client st context).2
  wire c (.replace_members image_id member_data)

/-- `add_member(context, image_id, member_id, can_share=None)`; the Python
default `can_share=None` is passed explicitly here. -/
def add_member {ρ : Type} (wire : WireClient ρ) (st : GlobalState)
    (context : RequestContext) (image_id : String) (member_id : String)
    (can_share : Option Bool) : ρ :=
  let c := (get_registry_client st context).2
  wire c (.add_member image_id member_id can_share)

/-- `delete_member(context, image_id, member_id)`. -/
def delete_member {ρ : Type} (wire : WireClient ρ) (st : GlobalState)
    (context : RequestContext) (image_id : String) (member_id : String) :
    ρ :=
  let c := (get_registry_client st context).2
  wire c (.delete_member image_id member_id)

/-- One call to a resolver entry point, with the configuration (and, for
credential resolution, the environment) it observes. -/
inductive ResolverOp where
  | resolveConnection (conf : Conf)
  | resolveCredentials (conf : Conf) (env : Env)

/-- Effect of one resolver call on the globals (for a failed
`configure_registry_client` the globals are whatever the function left
them — its error branches leave them untouched). -/
def runOp (st : GlobalState) : ResolverOp → GlobalState
  | .resolveConnection conf => (configure_registry_client conf st).1
  | .resolveCredentials conf env => configure_registry_admin_creds conf env st

/-- Running a sequence of resolver calls in order. -/
def runOps (st : GlobalState) (ops : List ResolverOp) : GlobalState :=
  ops.foldl runOp st

/-- Whether a resolver call is a `configure_registry_admin_creds` call. -/
def ResolverOp.isResolveCredentials : ResolverOp → Bool
  | .resolveConnection _ => false
  | .resolveCredentials _ _ => true

/-! ### Sample concrete values, used to evaluate the theorems on inputs -/

/-- A concrete configuration (the end-to-end scenario of the spec:
`https`, `insecure=true`, host `10.0.0.5`, port `9292`; admin values absent;
default strategy `customstrategy`). -/
def sampleConf : Conf :=
  { registry_host := .ok "10.0.0.5",
    registry_port := .ok 9292,
    registry_client_protocol := "https",
    registry_client_key_file := none,
    registry_client_cert_file := none,
    registry_client_ca_file := none,
    registry_client_insecure := true,
    registry_client_timeout := 600,
    admin_user := none,
    admin_password := none,
    admin_tenant_name := none,
    auth_url := none,
    auth_strategy := "customstrategy",
    auth_region := none,
    metadata_encryption_key := none }

/-- An environment with `OS_AUTH_URL` unset. -/
def envUnset : Env := { OS_AUTH_URL := none }

/-! ### Basic facts about the embedding -/

theorem pyTruthy_eq_true_iff (o : Option String) :
    pyTruthy o = true ↔ ∃ s, o = some s ∧ s ≠ "" := by
  cases o with
  | none => simp [pyTruthy]
  | some s => simp [pyTruthy]

theorem pyTruthy_eq_false_iff (o : Option String) :
    pyTruthy o = false ↔ o = none ∨ o = some "" := by
  cases o with
  | none => simp [pyTruthy]
  | some s => simp [pyTruthy]

/-- A successful `configure_registry_client` call does not touch
`_CLIENT_CREDS`, and a failing one touches nothing at all. -/
theorem configure_registry_client_creds_eq (conf : Conf) (st : GlobalState) :
    ((configure_registry_client conf st).1).client_creds = st.client_creds := by
  cases hh : conf.registry_host <;> cases hp : conf.registry_port <;>
    simp [configure_registry_client, OptRead.read, hh, hp]

/-- The `creds` keyword of the constructed handle equals the cached
`_CLIENT_CREDS` value (the dict, when cached, is truthy, so it is attached
exactly when present). -/
theorem get_registry_client_creds_eq (st : GlobalState)
    (cxt : RequestContext) :
    ((get_registry_client st cxt).2).creds = st.client_creds := by
  cases h : st.client_creds <;> simp [get_registry_client, h]

/-- Unfolding one step of a resolver run. -/
theorem runOps_cons (st : GlobalState) (op : ResolverOp)
    (rest : List ResolverOp) :
    runOps st (op :: rest) = runOps (runOp st op) rest := rfl

/-- `_CLIENT_CREDS` stays `None` across any run of resolver calls that
contains no `configure_registry_admin_creds` call. -/
theorem runOps_creds_none (ops : List ResolverOp) (st : GlobalState)
    (h0 : st.client_creds = none)
    (h : ∀ op ∈ ops, op.isResolveCredentials = false) :
    (runOps st ops).client_creds = none := by
  induction ops generalizing st with
  | nil => exact h0
  | cons op rest ih =>
    have hop := h op (List.mem_cons_self op rest)
    rw [runOps_cons]
    cases op with
    | resolveConnection conf =>
      refine ih _ ?_ fun o ho => h o (List.mem_cons_of_mem _ ho)
      show ((configure_registry_client conf st).1).client_creds = none
      rw [configure_registry_client_creds_eq]
      exact h0
    | resolveCredentials conf env =>
      simp [ResolverOp.isResolveCredentials] at hop

/-- Once `_CLIENT_CREDS` holds a dict, every later resolver call leaves it
holding a dict. -/
theorem runOps_creds_isSome (ops : List ResolverOp) (st : GlobalState)
    (h0 : (st.client_creds).isSome = true) :
    ((runOps st ops).client_creds).isSome = true := by
  induction ops generalizing st with
  | nil => exact h0
  | cons op rest ih =>
    rw [runOps_cons]
    cases op with
    | resolveConnection conf =>
      refine ih _ ?_
      show (((configure_registry_client conf st).1).client_creds).isSome = true
      rw [configure_registry_client_creds_eq]
      exact h0
    | resolveCredentials conf env =>
      refine ih _ ?_
      show (((configure_registry_admin_creds conf env st).client_creds)).isSome = true
      simp [configure_registry_admin_creds]

/-- After a run containing at least one `configure_registry_admin_creds`
call, `_CLIENT_CREDS` holds a dict. -/
theorem runOps_creds_isSome_of_mem (ops : List ResolverOp) (st : GlobalState)
    (h : ∃ op ∈ ops, op.isResolveCredentials = true) :
    ((runOps st ops).client_creds).isSome = true := by
  induction ops generalizing st with
  | nil => simp at h
  | cons op rest ih =>
    obtain ⟨o, ho, hcred⟩ := h
    rw [runOps_cons]
    rcases List.mem_cons.mp ho with rfl | ho2
    · cases o with
      | resolveConnection conf =>
        simp [ResolverOp.isResolveCredentials] at hcred
      | resolveCredentials conf env =>
        refine runOps_creds_isSome rest _ ?_
        show (((configure_registry_admin_creds conf env st).client_creds)).isSome = true
        simp [configure_registry_admin_creds]
    · exact ih _ ⟨o, ho2, hcred⟩

/-! ### Claim theorems -/

/-- C1: `configure_registry_admin_creds` records the effective strategy as
`"keystone"` whenever an auth endpoint is set — a non-`None`, non-empty
string in either the `auth_url` configuration option or the `OS_AUTH_URL`
environment override (Python truthiness of `CONF.auth_url or
os.getenv('OS_AUTH_URL')`) — regardless of the configured default strategy;
when neither is set, the recorded strategy equals the configured default
verbatim. -/
theorem admin_creds_strategy_resolution (conf : Conf) (env : Env)
    (st : GlobalState) :
    ((∃ s, (conf.auth_url = some s ∧ s ≠ "") ∨
           (env.OS_AUTH_URL = some s ∧ s ≠ "")) →
      ∃ c, (configure_registry_admin_creds conf env st).client_creds =
          some c ∧ c.strategy = "keystone") ∧
    ((conf.auth_url = none ∨ conf.auth_url = some "") →
     (env.OS_AUTH_URL = none ∨ env.OS_AUTH_URL = some "") →
      ∃ c, (configure_registry_admin_creds conf env st).client_creds =
          some c ∧ c.strategy = conf.auth_strategy) := by
  constructor
  · rintro ⟨s, h | h⟩
    · have ht : pyTruthy conf.auth_url = true :=
        (pyTruthy_eq_true_iff _).mpr ⟨s, h.1, h.2⟩
      exact ⟨_, rfl, by simp [configure_registry_admin_creds, ht]⟩
    · have ht : pyTruthy env.OS_AUTH_URL = true :=
        (pyTruthy_eq_true_iff _).mpr ⟨s, h.1, h.2⟩
      exact ⟨_, rfl, by simp [configure_registry_admin_creds, ht]⟩
  · intro h1 h2
    have hf1 : pyTruthy conf.auth_url = false :=
      (pyTruthy_eq_false_iff _).mpr h1
    have hf2 : pyTruthy env.OS_AUTH_URL = false :=
      (pyTruthy_eq_false_iff _).mpr h2
    exact ⟨_, rfl, by simp [configure_registry_admin_creds, hf1, hf2]⟩

/-- Witness for C1: with `auth_url` set the strategy is forced to
`"keystone"` even though the default is `"customstrategy"`; with no auth
endpoint the default `"customstrategy"` is kept verbatim. -/
theorem admin_creds_strategy_resolution_witness :
    (∃ c, (configure_registry_admin_creds
        { sampleConf with auth_url := some "http://127.0.0.1:5000/v2.0" }
        envUnset initialState).client_creds = some c ∧
        c.strategy = "keystone") ∧
    (∃ c, (configure_registry_admin_creds sampleConf envUnset
        initialState).client_creds = some c ∧
        c.strategy = "customstrategy") := by
  constructor
  · exact (admin_creds_strategy_resolution
      { sampleConf with auth_url := some "http://127.0.0.1:5000/v2.0" }
      envUnset initialState).1
      ⟨"http://127.0.0.1:5000/v2.0", Or.inl ⟨rfl, by decide⟩⟩
  · exact (admin_creds_strategy_resolution sampleConf envUnset
      initialState).2 (Or.inl rfl) (Or.inl rfl)

/-- C5: a client built before any `configure_registry_admin_creds` call — at
module load time or after `configure_registry_client` calls only — has
no `creds` attached, and `get_registry_client` is a total function of the
cached snapshots and the context's `auth_tok` (it performs only reads, a
dict copy and a constructor call, so it cannot raise; the returned state is
unchanged). -/
theorem get_registry_client_before_creds (ops : List ResolverOp)
    (cxt : RequestContext)
    (h : ∀ op ∈ ops, op.isResolveCredentials = false) :
    (runOps initialState ops).client_creds = none ∧
    ((get_registry_client (runOps initialState ops) cxt).2).creds = none ∧
    (get_registry_client (runOps initialState ops) cxt).1 =
      runOps initialState ops := by
  have hnone := runOps_creds_none ops initialState rfl h
  refine ⟨hnone, ?_, rfl⟩
  rw [get_registry_client_creds_eq]
  exact hnone

/-- Witness for C5: after one connection-resolution call and no credential
resolution, the built handle carries no admin credentials. -/
theorem get_registry_client_before_creds_witness :
    ((get_registry_client
        (runOps initialState [ResolverOp.resolveConnection sampleConf])
        ⟨some "tok"⟩).2).creds = none := by
  exact (get_registry_client_before_creds
      [ResolverOp.resolveConnection sampleConf] ⟨some "tok"⟩
      (fun op hop => by
        have he := List.mem_singleton.mp hop
        subst he
        rfl)).2.1

/-- C6: `get_registry_client` mutates no cached snapshot: the returned
global state is the input state, in particular `_CLIENT_KWARGS`,
`_CLIENT_CREDS`, `_CLIENT_HOST`, `_CLIENT_PORT` and
`_METADATA_ENCRYPTION_KEY` are all unchanged (the handle is built from a
copy of the transport kwargs, and the per-call `auth_tok`/`creds` additions
go into that copy, not the cache). -/
theorem get_registry_client_frame (st : GlobalState) (cxt : RequestContext) :
    (get_registry_client st cxt).1 = st ∧
    ((get_registry_client st cxt).1).client_kwargs = st.client_kwargs ∧
    ((get_registry_client st cxt).1).client_creds = st.client_creds ∧
    ((get_registry_client st cxt).1).client_host = st.client_host ∧
    ((get_registry_client st cxt).1).client_port = st.client_port ∧
    ((get_registry_client st cxt).1).metadata_encryption_key =
      st.metadata_encryption_key :=
  ⟨rfl, rfl, rfl, rfl, rfl, rfl⟩

/-- C7: each of the eleven delegation operations builds a handle from the
given context via `get_registry_client` and performs exactly one wire-client
call, on the identically-named operation, with its remaining arguments
forwarded unchanged and in order, returning the wire client's result
unchanged (for the three logged operations, the result component of the
returned pair); in particular `update_image_metadata(ctx, image_id,
image_meta, purge_props)` results in the single call
`update_image(image_id, image_meta, purge_props)`. -/
theorem delegation_forwards {ρ : Type} (wire : WireClient ρ)
    (st : GlobalState) (context : RequestContext) (filters : StrDict)
    (image_id : String) (member_id : String) (image_meta : StrDict)
    (member_data : StrDict) (purge_props : Bool) (can_share : Option Bool) :
    get_images_list wire st context filters =
      wire ((get_registry_client st context).2) (.get_images filters) ∧
    get_images_detail wire st context filters =
      wire ((get_registry_client st context).2)
        (.get_images_detailed filters) ∧
    get_image_metadata wire st context image_id =
      wire ((get_registry_client st context).2) (.get_image image_id) ∧
    (add_image_metadata wire st context image_meta).1 =
      wire ((get_registry_client st context).2) (.add_image image_meta) ∧
    (update_image_metadata wire st context image_id image_meta
        purge_props).1 =
      wire ((get_registry_client st context).2)
        (.update_image image_id image_meta purge_props) ∧
    (delete_image_metadata wire st context image_id).1 =
      wire ((get_registry_client st context).2) (.delete_image image_id) ∧
    get_image_members wire st context image_id =
      wire ((get_registry_client st context).2)
        (.get_image_members image_id) ∧
    get_member_images wire st context member_id =
      wire ((get_registry_client st context).2)
        (.get_member_images member_id) ∧
    replace_members wire st context image_id member_data =
      wire ((get_registry_client st context).2)
        (.replace_members image_id member_data) ∧
    add_member wire st context image_id member_id can_share =
      wire ((get_registry_client st context).2)
        (.add_member image_id member_id can_share) ∧
    delete_member wire st context image_id member_id =
      wire ((get_registry_client st context).2)
        (.delete_member image_id member_id) :=
  ⟨rfl, rfl, rfl, rfl, rfl, rfl, rfl, rfl, rfl, rfl, rfl⟩

/-- Witness for C7 (the spec's fake-client test): with a wire client that
records each call, `update_image_metadata(ctx, "img-1", [(name, x)], true)`
records exactly the one call `update_image("img-1", [(name, x)], true)`. -/
theorem delegation_forwards_witness :
    (update_image_metadata (fun _ op => ([op] : List WireOp)) initialState
        ⟨some "tok"⟩ "img-1" [("name", "x")] true).1 =
      [WireOp.update_image "img-1" [("name", "x")] true] :=
  (delegation_forwards (fun _ op => ([op] : List WireOp)) initialState
      ⟨some "tok"⟩ [] "img-1" "m-1" [("name", "x")] [] true
      none).2.2.2.2.1

/-- C9: after any resolver run containing at least one
`configure_registry_admin_creds` call, the cached `_CLIENT_CREDS` is a
(truthy, seven-key) dict — its `strategy` field is a `String` by
construction — so every subsequent `get_registry_client` call attaches
admin credentials to the handle, whatever the admin option values were. -/
theorem creds_always_attached_after_resolve (ops : List ResolverOp)
    (cxt : RequestContext)
    (h : ∃ op ∈ ops, op.isResolveCredentials = true) :
    ((runOps initialState ops).client_creds).isSome = true ∧
    (((get_registry_client (runOps initialState ops) cxt).2).creds).isSome =
      true := by
  have hs := runOps_creds_isSome_of_mem ops initialState h
  refine ⟨hs, ?_⟩
  rw [get_registry_client_creds_eq]
  exact hs

/-- Witness for C9: one credential-resolution call with every admin option
absent still leaves a cached credentials dict, and the next handle carries
it. -/
theorem creds_always_attached_after_resolve_witness :
    (((get_registry_client
        (runOps initialState
          [ResolverOp.resolveCredentials sampleConf envUnset])
        ⟨some "tok"⟩).2).creds).isSome = true :=
  (creds_always_attached_after_resolve
      [ResolverOp.resolveCredentials sampleConf envUnset] ⟨some "tok"⟩
      ⟨ResolverOp.resolveCredentials sampleConf envUnset,
        List.mem_singleton.mpr rfl, rfl⟩).2

/-- C10: `get_registry_client` copies the context's `auth_tok` into the
handle without validation — for every context the handle's `auth_tok` is
exactly `cxt.auth_tok`, and a context with an absent (`None`) token still
yields a handle. -/
theorem get_registry_client_auth_tok (st : GlobalState)
    (cxt : RequestContext) :
    ((get_registry_client st cxt).2).auth_tok = cxt.auth_tok ∧
    ((get_registry_client st ⟨none⟩).2).auth_tok = none :=
  ⟨rfl, rfl⟩

/-- Counterexample to C2 as stated: the source computes `use_ssl` as
`CONF.registry_client_protocol.lower() == 'https'`, so the configuration
with protocol string `"HTTPS"` — which is not the string `"https"` — still
yields a handle with `use_ssl = true`, refuting "false for any other
protocol string". -/
theorem registry_client_use_ssl_counterexample :
    ({ sampleConf with
        registry_client_protocol := "HTTPS" } : Conf).registry_client_protocol
      ≠ "https" ∧
    ((get_registry_client
        (configure_registry_client
          { sampleConf with registry_client_protocol := "HTTPS" }
          initialState).1
        ⟨some "tok"⟩).2).kwargs.use_ssl = some true := by
  constructor
  · decide
  · rfl

/-- C2 (amended): for every configuration on which
`configure_registry_client` succeeds (both guarded reads yield values),
a subsequent `get_registry_client` call yields a handle whose transport
fields exactly equal the configured values, and whose `use_ssl` flag is
`true` exactly when the configured protocol string, lowercased, equals
`"https"`. -/
theorem registry_client_transport_fields (conf : Conf) (st : GlobalState)
    (cxt : RequestContext) (host : String) (port : Int)
    (hh : conf.registry_host = .ok host)
    (hp : conf.registry_port = .ok port) :
    ((get_registry_client (configure_registry_client conf st).1 cxt).2).host =
      some host ∧
    ((get_registry_client (configure_registry_client conf st).1 cxt).2).port =
      some port ∧
    ((get_registry_client (configure_registry_client conf st).1
        cxt).2).kwargs.key_file = some conf.registry_client_key_file ∧
    ((get_registry_client (configure_registry_client conf st).1
        cxt).2).kwargs.cert_file = some conf.registry_client_cert_file ∧
    ((get_registry_client (configure_registry_client conf st).1
        cxt).2).kwargs.ca_file = some conf.registry_client_ca_file ∧
    ((get_registry_client (configure_registry_client conf st).1
        cxt).2).kwargs.insecure = some conf.registry_client_insecure ∧
    ((get_registry_client (configure_registry_client conf st).1
        cxt).2).kwargs.timeout = some conf.registry_client_timeout ∧
    (((get_registry_client (configure_registry_client conf st).1
        cxt).2).kwargs.use_ssl = some true ↔
      pyLower conf.registry_client_protocol = "https") ∧
    ((get_registry_client (configure_registry_client conf st).1
        cxt).2).metadata_encryption_key = conf.metadata_encryption_key := by
  simp [configure_registry_client, get_registry_client, OptRead.read,
    hh, hp]

/-- Witness for C2 (amended), the spec's end-to-end scenario: protocol
`https`, `insecure=true`, host `10.0.0.5`, port `9292`, token `"tok"` —
the handle says TLS on, insecure on, host/port match. -/
theorem registry_client_transport_fields_witness :
    ((get_registry_client (configure_registry_client sampleConf
        initialState).1 ⟨some "tok"⟩).2).host = some "10.0.0.5" ∧
    ((get_registry_client (configure_registry_client sampleConf
        initialState).1 ⟨some "tok"⟩).2).port = some 9292 ∧
    ((get_registry_client (configure_registry_client sampleConf
        initialState).1 ⟨some "tok"⟩).2).kwargs.insecure = some true ∧
    ((get_registry_client (configure_registry_client sampleConf
        initialState).1 ⟨some "tok"⟩).2).kwargs.use_ssl = some true := by
  have h := registry_client_transport_fields sampleConf initialState
    ⟨some "tok"⟩ "10.0.0.5" 9292 rfl rfl
  exact ⟨h.1, h.2.1, h.2.2.2.2.2.1, h.2.2.2.2.2.2.2.1.mpr (by decide)⟩

/-- C3: `configure_registry_client` surfaces both a malformed guarded read
(`ConfigFileValueError`, e.g. a non-numeric `registry_port`) and a missing
option (`IndexError`) as the single error kind
`BadRegistryConnectionConfiguration`, logging a message at error severity
in both cases, so a caller cannot tell the two apart by error kind. -/
theorem configure_registry_client_error_uniform (confm confs : Conf)
    (stm sts : GlobalState) (h : String)
    (hm1 : confm.registry_host = .ok h)
    (hm2 : confm.registry_port = .malformed)
    (hs : confs.registry_host = .missing) :
    (∃ m, (configure_registry_client confm stm).2.1 =
        .error (.BadRegistryConnectionConfiguration m) ∧
      (⟨.error, m⟩ : LogEntry) ∈ (configure_registry_client confm stm).2.2) ∧
    (∃ m, (configure_registry_client confs sts).2.1 =
        .error (.BadRegistryConnectionConfiguration m) ∧
      (⟨.error, m⟩ : LogEntry) ∈ (configure_registry_client confs sts).2.2) := by
  constructor
  · refine ⟨"Configuration option was not valid", ?_, ?_⟩ <;>
      simp [configure_registry_client, OptRead.read, hm1, hm2]
  · refine ⟨"Could not find required configuration option", ?_, ?_⟩ <;>
      simp [configure_registry_client, OptRead.read, hs]

/-- Witness for C3: a configuration with a non-numeric port and one whose
host option cannot be located both fail with
`BadRegistryConnectionConfiguration` and an error-severity log entry. -/
theorem configure_registry_client_error_uniform_witness :
    (∃ m, (configure_registry_client
        { sampleConf with registry_port := .malformed }
        initialState).2.1 =
        .error (.BadRegistryConnectionConfiguration m) ∧
      (⟨.error, m⟩ : LogEntry) ∈ (configure_registry_client
        { sampleConf with registry_port := .malformed }
        initialState).2.2) ∧
    (∃ m, (configure_registry_client
        { sampleConf with registry_host := .missing }
        initialState).2.1 =
        .error (.BadRegistryConnectionConfiguration m) ∧
      (⟨.error, m⟩ : LogEntry) ∈ (configure_registry_client
        { sampleConf with registry_host := .missing }
        initialState).2.2) :=
  configure_registry_client_error_uniform
    { sampleConf with registry_port := .malformed }
    { sampleConf with registry_host := .missing }
    initialState initialState "10.0.0.5" rfl rfl rfl

/-- C4: whenever `configure_registry_client` fails with
`BadRegistryConnectionConfiguration`, the returned global state is exactly
the input state — the raise happens inside the `try` block, before any of
the five globals is assigned, so no snapshot is partially updated. -/
theorem configure_registry_client_error_no_write (conf : Conf)
    (st : GlobalState) (e : RegistryError)
    (he : (configure_registry_client conf st).2.1 = .error e) :
    (configure_registry_client conf st).1 = st := by
  cases hh : conf.registry_host <;> cases hp : conf.registry_port <;>
    simp [configure_registry_client, OptRead.read, hh, hp] at he ⊢

/-- Witness for C4: the failing non-numeric-port configuration leaves the
initial globals untouched. -/
theorem configure_registry_client_error_no_write_witness :
    (configure_registry_client
        { sampleConf with registry_port := .malformed }
        initialState).1 = initialState :=
  configure_registry_client_error_no_write
    { sampleConf with registry_port := .malformed } initialState
    (.BadRegistryConnectionConfiguration "Configuration option was not valid")
    rfl

/-- C8: `configure_registry_admin_creds` never fails — it is a total
function of the configuration, environment and state — and with admin user,
password, tenant, auth URL and region all absent it still completes,
recording the absent values as `None` fields of the credentials snapshot. -/
theorem admin_creds_never_fails (conf : Conf) (env : Env) (st : GlobalState)
    (hu : conf.admin_user = none) (hp : conf.admin_password = none)
    (ht : conf.admin_tenant_name = none) (ha : conf.auth_url = none)
    (hr : conf.auth_region = none) :
    (∀ (c2 : Conf) (e2 : Env) (s2 : GlobalState),
      ∃ cr, (configure_registry_admin_creds c2 e2 s2).client_creds =
        some cr) ∧
    (∃ cr, (configure_registry_admin_creds conf env st).client_creds =
        some cr ∧ cr.user = none ∧ cr.password = none ∧
        cr.username = none ∧ cr.tenant = none ∧ cr.auth_url = none ∧
        cr.region = none) :=
  ⟨fun _ _ _ => ⟨_, rfl⟩, ⟨_, rfl, hu, hp, hu, ht, ha, hr⟩⟩

/-- Witness for C8: the sample configuration has every admin value absent,
and credential resolution still produces a snapshot with `None` fields. -/
theorem admin_creds_never_fails_witness :
    ∃ cr, (configure_registry_admin_creds sampleConf envUnset
        initialState).client_creds = some cr ∧ cr.user = none ∧
      cr.password = none ∧ cr.username = none ∧ cr.tenant = none ∧
      cr.auth_url = none ∧ cr.region = none :=
  (admin_creds_never_fails sampleConf envUnset initialState
    rfl rfl rfl rfl rfl).2

end GlanceRegistry
